import Mathlib

/-!
Shallow embedding of `src/lambda_function.py` (a Calendly-to-S3 extraction
lambda) and proofs about it.

Modelling conventions:
* JSON documents (the bodies of HTTP responses, already parsed by
  `response.json()`) are values of the inductive type `Json`.
* Python exceptions are values of `PyErr`; fallible code returns
  `Except PyErr α`.  A Python function that returns `None` is modelled with
  `Option`.
* The external HTTP world is a structure `Api` of response functions, one per
  endpoint; each takes the rendered bearer token (the `str(api_key)` that the
  source interpolates into the `Authorization` header) and the URL
  parameters.  The list of requests a run issues is returned explicitly as a
  trace of `ApiCall` values.
* `pandas.DataFrame` is modelled by `Df` (a column list plus rows of cells);
  a missing key in a source dict becomes the cell `Json.null` (pandas NaN).
* Numbers are rationals; Python float `round(x, 2)` is modelled by exact
  rational rounding with the round-half-to-even rule Python uses.
-/

/-- A parsed JSON value, as produced by `response.json()` / `json.loads`. -/
inductive Json where
  | null
  | bool (b : Bool)
  | num (q : ℚ)
  | str (s : String)
  | arr (elems : List Json)
  | obj (fields : List (String × Json))

/-- The Python exceptions this program can raise in the modelled fragment. -/
inductive PyErr where
  | attributeError
  | keyError (k : String)
  | typeError
  | lookupFailed
  | parseError
  deriving DecidableEq, Repr

/-- Python truthiness (`if not x`): `None`, `""`, `0`, `[]` and an empty dict
are falsy, everything else modelled here is truthy. -/
def pyTruthy : Json → Bool
  | Json.null => false
  | Json.bool b => b
  | Json.num q => q != 0
  | Json.str s => s ≠ ""
  | Json.arr xs => ¬ xs.isEmpty
  | Json.obj fs => ¬ fs.isEmpty

/-- Python `d.get(k, default)`: total on dicts, raises `AttributeError` on any
other value. -/
def pyGetE (j : Json) (k : String) (d : Json) : Except PyErr Json :=
  match j with
  | Json.obj fs => Except.ok ((fs.lookup k).getD d)
  | _ => Except.error PyErr.attributeError

/-- Python subscript `d[k]`: raises `KeyError` on a dict missing the key and
`TypeError` on non-dict values. -/
def pyIndex (j : Json) (k : String) : Except PyErr Json :=
  match j with
  | Json.obj fs =>
      match fs.lookup k with
      | some v => Except.ok v
      | none => Except.error (PyErr.keyError k)
  | _ => Except.error PyErr.typeError

/-- Python iteration `for x in v`: lists yield their elements, dicts their
keys, strings their characters; other values raise `TypeError`. -/
def pyIter : Json → Except PyErr (List Json)
  | Json.arr xs => Except.ok xs
  | Json.obj fs => Except.ok (fs.map (fun f => Json.str f.1))
  | Json.str s => Except.ok (s.data.map (fun c => Json.str (String.singleton c)))
  | _ => Except.error PyErr.typeError

/-- An HTTP response as the source observes it: the status code and the body
already parsed as JSON (`response.json()`). -/
structure HttpResponse where
  status : Nat
  body : Json

/-- One request issued against the Calendly API, identified by endpoint and
URL parameters. -/
inductive ApiCall where
  | usersMe
  | eventTypes (org : Json)
  | scheduledEvents (eventType : Json) (org : Json)

/-- The external Calendly API: a response for every possible request.  Each
function takes the rendered bearer token first. -/
structure Api where
  usersMe : String → HttpResponse
  eventTypes : String → Json → HttpResponse
  scheduledEvents : String → Json → Json → HttpResponse

/-- Environment default for the bucket name (`S3_BUCKET_NAME`). -/
def S3_BUCKET_NAME : String := "calendly-vitor"

/-- Environment default for the key folder (`S3_FOLDER_PATH`). -/
def S3_FOLDER_PATH : String := "calendly/"

/-- Key of the raw-data CSV, from the run timestamp (`S3_CALENDLY_PATH`). -/
def S3_CALENDLY_PATH (ts : String) : String :=
  S3_FOLDER_PATH ++ "calendly_scheduled_calls_" ++ ts ++ ".csv"

/-- Key of the metrics CSV, from the run timestamp (`S3_METRICS_PATH`). -/
def S3_METRICS_PATH (ts : String) : String :=
  S3_FOLDER_PATH ++ "campaign_metrics_" ++ ts ++ ".csv"

/-- Source lines 59-70, `get_calendly_org_uri`: GET `/users/me`; on HTTP 200
extract `resource.current_organization` with `.get` defaults (the nested
`.get` chain can raise on non-dict bodies); on any other status log and
return `None`.  The first component is the trace of requests issued. -/
def get_calendly_org_uri (apiKey : String) (api : Api) :
    List ApiCall × Except PyErr (Option Json) :=
  let r := api.usersMe apiKey
  ([ApiCall.usersMe],
    if r.status = 200 then
      match pyGetE r.body "resource" (Json.obj []) with
      | Except.error e => Except.error e
      | Except.ok res =>
          match pyGetE res "current_organization" (Json.str "") with
          | Except.error e => Except.error e
          | Except.ok org => Except.ok (some org)
    else
      Except.ok none)

/-- The list comprehension `[event["uri"] for event in event_types]` from
source line 81: unguarded subscripting, so a single item without a `uri` key
raises `KeyError`. -/
def collectUris : List Json → Except PyErr (List Json)
  | [] => Except.ok []
  | e :: rest =>
      match pyIndex e "uri" with
      | Except.error err => Except.error err
      | Except.ok u =>
          match collectUris rest with
          | Except.error err => Except.error err
          | Except.ok us => Except.ok (u :: us)

/-- Source lines 73-84, `get_event_types`: GET `/event_types`; on HTTP 200
take the `collection` array (defaulting to `[]`) and extract each item
subscript `uri`; on any other status return `[]`. -/
def get_event_types (apiKey : String) (api : Api) (org : Json) :
    List ApiCall × Except PyErr (List Json) :=
  let r := api.eventTypes apiKey org
  ([ApiCall.eventTypes org],
    if r.status = 200 then
      match pyGetE r.body "collection" (Json.arr []) with
      | Except.error e => Except.error e
      | Except.ok coll =>
          match pyIter coll with
          | Except.error e => Except.error e
          | Except.ok items => collectUris items
    else
      Except.ok [])

/-- The field names of a flattened ScheduledEvent record, in the order the
dict literal at source lines 108-115 writes them. -/
def eventFields : List String :=
  ["event_id", "event_type", "start_time", "end_time", "status", "invitee_email"]

/-- A flattened record: an association list standing for the Python dict the
loop body appends, keys in insertion order. -/
abbrev Rec := List (String × Json)

/-- Source lines 108-115: flatten one scheduled-event JSON item into a
six-field record with `.get` defaults (`""` for identifiers and times,
`"N/A"` for status and invitee email; the email is read from the nested
`location` object, defaulting to an empty dict). -/
def flatten_event (event : Json) : Except PyErr Rec :=
  match pyGetE event "uri" (Json.str "") with
  | Except.error e => Except.error e
  | Except.ok eid =>
    match pyGetE event "event_type" (Json.str "") with
    | Except.error e => Except.error e
    | Except.ok ety =>
      match pyGetE event "start_time" (Json.str "") with
      | Except.error e => Except.error e
      | Except.ok st =>
        match pyGetE event "end_time" (Json.str "") with
        | Except.error e => Except.error e
        | Except.ok en =>
          match pyGetE event "status" (Json.str "N/A") with
          | Except.error e => Except.error e
          | Except.ok stat =>
            match pyGetE event "location" (Json.obj []) with
            | Except.error e => Except.error e
            | Except.ok loc =>
              match pyGetE loc "email" (Json.str "N/A") with
              | Except.error e => Except.error e
              | Except.ok email =>
                Except.ok [("event_id", eid), ("event_type", ety),
                  ("start_time", st), ("end_time", en), ("status", stat),
                  ("invitee_email", email)]

/-- Flatten every item of a `collection` array in order; the first exception
aborts (as the Python `for` loop would propagate it). -/
def flatten_collection : List Json → Except PyErr (List Rec)
  | [] => Except.ok []
  | e :: rest =>
      match flatten_event e with
      | Except.error err => Except.error err
      | Except.ok r =>
          match flatten_collection rest with
          | Except.error err => Except.error err
          | Except.ok rs => Except.ok (r :: rs)

/-- Source lines 101-117, the body of the per-event-type loop: GET
`/scheduled_events`; on HTTP 200 flatten the `collection` items; on any other
status log and contribute no events (`Except.ok []`). -/
def fetch_events_for (apiKey : String) (api : Api) (org eventType : Json) :
    Except PyErr (List Rec) :=
  let r := api.scheduledEvents apiKey eventType org
  if r.status = 200 then
    match pyGetE r.body "collection" (Json.arr []) with
    | Except.error e => Except.error e
    | Except.ok coll =>
        match pyIter coll with
        | Except.error e => Except.error e
        | Except.ok items => flatten_collection items
  else
    Except.ok []

/-- The `for event_type in event_types` loop of source lines 100-117, with
its request trace.  A non-200 response contributes zero events and the loop
continues; an exception inside the 200 branch propagates. -/
def fetch_loop (apiKey : String) (api : Api) (org : Json) :
    List Json → List ApiCall × Except PyErr (List Rec)
  | [] => ([], Except.ok [])
  | et :: rest =>
      match fetch_events_for apiKey api org et with
      | Except.error e => ([ApiCall.scheduledEvents et org], Except.error e)
      | Except.ok evs =>
          let (cs, res) := fetch_loop apiKey api org rest
          (ApiCall.scheduledEvents et org :: cs,
            match res with
            | Except.error e => Except.error e
            | Except.ok l => Except.ok (evs ++ l))

/-- Source lines 87-119, `fetch_calendly_scheduled_calls`: resolve the
organization URI (falsy or `None` is a hard stop returning an empty record
set), list event types (empty is a hard stop), then run the per-type loop.
The first component is the trace of requests issued. -/
def fetch_calendly_scheduled_calls (apiKey : String) (api : Api) :
    List ApiCall × Except PyErr (List Rec) :=
  match get_calendly_org_uri apiKey api with
  | (c1, Except.error e) => (c1, Except.error e)
  | (c1, Except.ok none) => (c1, Except.ok [])
  | (c1, Except.ok (some org)) =>
      if pyTruthy org then
        match get_event_types apiKey api org with
        | (c2, Except.error e) => (c1 ++ c2, Except.error e)
        | (c2, Except.ok ets) =>
            if ets.isEmpty then (c1 ++ c2, Except.ok [])
            else
              let (c3, res) := fetch_loop apiKey api org ets
              (c1 ++ c2 ++ c3, res)
      else (c1, Except.ok [])

/-- Decimal-or-fraction rendering of a rational, standing in for the decimal
rendering Python gives numbers; no proved claim depends on its exact text. -/
def ratStr (q : ℚ) : String :=
  if q.den = 1 then toString q.num else toString q.num ++ "/" ++ toString q.den

mutual

/-- Python `repr` of a JSON-shaped value, used when a value is printed or
rendered into a CSV cell; no proved claim depends on the container cases. -/
def pyRepr : Json → String
  | Json.null => "None"
  | Json.bool true => "True"
  | Json.bool false => "False"
  | Json.num q => ratStr q
  | Json.str s => "\x27" ++ s ++ "\x27"
  | Json.arr xs => "[" ++ pyReprElems xs ++ "]"
  | Json.obj fs => "\x7b" ++ pyReprFields fs ++ "\x7d"

/-- Comma-joined reprs of the elements of a list value. -/
def pyReprElems : List Json → String
  | [] => ""
  | [x] => pyRepr x
  | x :: rest => pyRepr x ++ ", " ++ pyReprElems rest

/-- Comma-joined `key: value` reprs of the fields of a dict value. -/
def pyReprFields : List (String × Json) → String
  | [] => ""
  | [(k, v)] => "\x27" ++ k ++ "\x27: " ++ pyRepr v
  | (k, v) :: rest => "\x27" ++ k ++ "\x27: " ++ pyRepr v ++ ", " ++ pyReprFields rest

end

/-- Python `str`, as `print` and f-string interpolation use it: a string
renders as itself, everything else as its repr. -/
def pyStr (j : Json) : String :=
  match j with
  | Json.str s => s
  | j => pyRepr j

/-- Python `str` on an optional value (`None` prints as `None`). -/
def pyStrOpt : Option Json → String
  | none => "None"
  | some j => pyStr j

/-- A pandas DataFrame: column names plus one cell row per record.  A missing
key of a source dict is the cell `Json.null` (pandas NaN). -/
structure Df where
  columns : List String
  rows : List (List Json)

/-- Merge a record's keys into the running column list, keeping first-seen
order (how `pd.DataFrame(list_of_dicts)` orders its columns). -/
def addCols (acc : List String) (ks : List String) : List String :=
  ks.foldl (fun a k => if k ∈ a then a else a ++ [k]) acc

/-- The column list `pd.DataFrame(records)` infers: union of the record keys
in first-seen order. -/
def dfColumns (records : List Rec) : List String :=
  records.foldl (fun a r => addCols a (r.map Prod.fst)) []

/-- `pd.DataFrame(records)` for a list of dicts: infer columns, then one row
per record with `Json.null` for keys the record lacks. -/
def df_of_records (records : List Rec) : Df :=
  { columns := dfColumns records,
    rows := records.map
      (fun r => (dfColumns records).map (fun c => (r.lookup c).getD Json.null)) }

/-- Pandas `df.empty`: true when either axis has length zero. -/
def Df.empty (df : Df) : Bool := df.rows.isEmpty || df.columns.isEmpty

/-- Render one CSV cell with the minimal quoting `to_csv` applies: quote and
double embedded quotes only when the text holds a comma, quote or newline. -/
def csvCell (s : String) : String :=
  if s.contains ',' || s.contains '\"' || s.contains '\n' || s.contains '\r' then
    "\"" ++ s.replace "\"" "\"\"" ++ "\""
  else s

/-- Text of a cell value: strings as themselves, NaN as empty, numbers and
containers via their renderings. -/
def cellStr : Json → String
  | Json.null => ""
  | Json.str s => s
  | Json.bool true => "True"
  | Json.bool false => "False"
  | Json.num q => ratStr q
  | Json.arr xs => pyRepr (Json.arr xs)
  | Json.obj fs => pyRepr (Json.obj fs)

/-- One CSV line: comma-joined quoted cells plus the line terminator. -/
def csvLine (cells : List String) : String :=
  String.intercalate "," (cells.map csvCell) ++ "\n"

/-- `df.to_csv(index=False)`: the header line of column names followed by one
line per row. -/
def df_to_csv (df : Df) : String :=
  csvLine df.columns ++ String.join (df.rows.map (fun row => csvLine (row.map cellStr)))

/-- A blob write against the object store (`s3_client.put_object`). -/
structure S3Write where
  bucket : String
  key : String
  body : String

/-- Source lines 41-56, `upload_to_s3`: skip the write (a logged no-op) when
the DataFrame is empty, otherwise issue exactly one `put_object` with the
CSV serialization as the body.  The returned list is the writes issued. -/
def upload_to_s3 (df : Df) (s3_path : String) : List S3Write :=
  if df.empty then []
  else [{ bucket := S3_BUCKET_NAME, key := s3_path, body := df_to_csv df }]

/-- Python `round` to an integer: round half to even. -/
def pyRound (q : ℚ) : ℤ :=
  let f := ⌊q⌋
  let frac := q - f
  if frac < 1 / 2 then f
  else if 1 / 2 < frac then f + 1
  else if f % 2 = 0 then f else f + 1

/-- Python `round(x, 2)` over exact rationals. -/
def round2 (q : ℚ) : ℚ := (pyRound (q * 100) : ℚ) / 100

/-- Column order of the metrics row, from the dict literal at source lines
127-132. -/
def metricsColumns : List String :=
  ["timestamp", "total_scheduled_calls", "completed_calls",
   "completed_calls_percentage"]

/-- Pandas elementwise `== "completed"`: true exactly on that string (NaN and
non-string cells compare false). -/
def jsonEqStr (j : Json) (s : String) : Bool :=
  match j with
  | Json.str t => t = s
  | _ => false

/-- Source lines 122-134, `calculate_metrics`: count rows, count rows whose
`status` cell equals `"completed"`, and build the single-row metrics frame.
`calendly_df["status"]` raises `KeyError` when the frame has no `status`
column — which is exactly the frame `pd.DataFrame([])` of an empty record
set — so the `else 0` guard of the percentage is unreachable there. -/
def calculate_metrics (ts : String) (calendly_df : Df) : Except PyErr Df :=
  let total := calendly_df.rows.length
  match calendly_df.columns.indexOf? "status" with
  | none => Except.error (PyErr.keyError "status")
  | some i =>
      let completed :=
        (calendly_df.rows.filter
          (fun row => jsonEqStr (row.getD i Json.null) "completed")).length
      let pctRaw : ℚ := if total > 0 then ((completed : ℚ) / (total : ℚ)) * 100 else 0
      Except.ok
        { columns := metricsColumns
          rows := [[Json.str ts, Json.num (total : ℚ), Json.num (completed : ℚ),
            Json.num (round2 pctRaw)]] }

/-- The secret store as the resolver sees it: the outcome of
`get_secret_value(...)['SecretString']` and the behavior of `json.loads` on
the returned document. -/
structure SecretWorld where
  lookup : Except PyErr String
  parse : String → Except PyErr Json

/-- Source lines 30-38, `get_calendly_api_key`: fetch and parse the secret
document, then `secret.get('calendly-api-key')` — `None` (here `Option.none`)
when the key is absent.  The `except` clause logs and re-raises, so every
failure propagates unchanged. -/
def get_calendly_api_key (w : SecretWorld) : Except PyErr (Option Json) :=
  match w.lookup with
  | Except.error e => Except.error e
  | Except.ok s =>
      match w.parse s with
      | Except.error e => Except.error e
      | Except.ok (Json.obj fs) => Except.ok (fs.lookup "calendly-api-key")
      | Except.ok _ => Except.error PyErr.attributeError

/-- An externally observable effect of a run, in program order. -/
inductive Effect where
  | printOut (s : String)
  | api (c : ApiCall)
  | s3put (w : S3Write)

/-- Everything external a run interacts with. -/
structure LambdaWorld where
  secrets : SecretWorld
  api : Api

/-- The body of the `try` block of `lambda_handler` (source lines 141-152):
resolve the credential, print it, fetch, upload the raw frame, compute
metrics, upload the metrics frame.  Returns the effect trace in program
order together with the outcome. -/
def run_core (ts : String) (w : LambdaWorld) : List Effect × Except PyErr Unit :=
  match get_calendly_api_key w.secrets with
  | Except.error e => ([], Except.error e)
  | Except.ok apiKey =>
      let pEff := Effect.printOut (pyStrOpt apiKey)
      let keyStr := pyStrOpt apiKey
      match fetch_calendly_scheduled_calls keyStr w.api with
      | (calls, Except.error e) => (pEff :: calls.map Effect.api, Except.error e)
      | (calls, Except.ok recs) =>
          let df := df_of_records recs
          let w1 := upload_to_s3 df (S3_CALENDLY_PATH ts)
          match calculate_metrics ts df with
          | Except.error e =>
              (pEff :: (calls.map Effect.api ++ w1.map Effect.s3put), Except.error e)
          | Except.ok mdf =>
              let w2 := upload_to_s3 mdf (S3_METRICS_PATH ts)
              (pEff :: (calls.map Effect.api ++ w1.map Effect.s3put
                ++ w2.map Effect.s3put), Except.ok ())

/-- The lines a run writes to standard output, in order. -/
def stdoutOf (fx : List Effect) : List String :=
  fx.filterMap (fun e => match e with | Effect.printOut s => some s | _ => none)

/-- The result object `lambda_handler` returns. -/
structure LambdaResult where
  statusCode : Nat
  body : String

/-- `json.dumps` escaping for plain strings. -/
def jsonEscape (s : String) : String :=
  (s.replace "\\" "\\\\").replace "\"" "\\\""

/-- `json.dumps` of a message string. -/
def jsonDumpsStr (s : String) : String := "\"" ++ jsonEscape s ++ "\""

/-- Rendering of an exception into the failure message (`str(e)`); the exact
text is not load-bearing for any proved claim. -/
def PyErr.msg : PyErr → String
  | PyErr.attributeError => "AttributeError"
  | PyErr.keyError k => "\x27" ++ k ++ "\x27"
  | PyErr.typeError => "TypeError"
  | PyErr.lookupFailed => "ClientError"
  | PyErr.parseError => "JSONDecodeError"

/-- Source lines 137-166, `lambda_handler`: run the pipeline inside a
`try`; on completion return status 200, on any exception catch it, log, and
return status 500 — the exception never propagates past the handler. -/
def lambda_handler (ts : String) (w : LambdaWorld) : List Effect × LambdaResult :=
  match run_core ts w with
  | (fx, Except.ok _) =>
      (fx, { statusCode := 200,
             body := jsonDumpsStr "Lambda execution completed successfully" })
  | (fx, Except.error e) =>
      (fx, { statusCode := 500,
             body := jsonDumpsStr ("Lambda execution failed: " ++ e.msg) })

/-- An API whose organization lookup fails with a non-200 status. -/
def c2Api : Api :=
  { usersMe := fun _ => { status := 404, body := Json.null }
    eventTypes := fun _ _ => { status := 404, body := Json.null }
    scheduledEvents := fun _ _ _ => { status := 404, body := Json.null } }

/-- A minimal scheduled-event JSON item holding only its `uri`. -/
def mkEvent (id : String) : Json := Json.obj [("uri", Json.str id)]

/-- The record `flatten_event` produces from `mkEvent id`: every other field
filled with its default. -/
def mkRec (id : String) : Rec :=
  [("event_id", Json.str id), ("event_type", Json.str ""),
   ("start_time", Json.str ""), ("end_time", Json.str ""),
   ("status", Json.str "N/A"), ("invitee_email", Json.str "N/A")]

/-- An API with three event types where the second scheduled-event listing
fails with HTTP 500 while the first and third return one and two events. -/
def c3Api : Api :=
  { usersMe := fun _ =>
      { status := 200,
        body := Json.obj
          [("resource", Json.obj [("current_organization", Json.str "org/abc")])] }
    eventTypes := fun _ _ =>
      { status := 200,
        body := Json.obj
          [("collection", Json.arr [mkEvent "t1", mkEvent "t2", mkEvent "t3"])] }
    scheduledEvents := fun _ et _ =>
      match et with
      | Json.str "t1" =>
          { status := 200, body := Json.obj [("collection", Json.arr [mkEvent "e1"])] }
      | Json.str "t2" => { status := 500, body := Json.null }
      | _ =>
          { status := 200,
            body := Json.obj [("collection", Json.arr [mkEvent "e2", mkEvent "e3"])] } }

/-- The record set a run against `c3Api` extracts. -/
def c3recs : List Rec := [mkRec "e1", mkRec "e2", mkRec "e3"]

/-- The request trace of a run against `c3Api`. -/
def c3calls : List ApiCall :=
  [ApiCall.usersMe, ApiCall.eventTypes (Json.str "org/abc"),
   ApiCall.scheduledEvents (Json.str "t1") (Json.str "org/abc"),
   ApiCall.scheduledEvents (Json.str "t2") (Json.str "org/abc"),
   ApiCall.scheduledEvents (Json.str "t3") (Json.str "org/abc")]

/-- An API whose event-type listing answers 200 with one collection item that
has no `uri` key. -/
def c9Api : Api :=
  { usersMe := fun _ => { status := 200, body := Json.null }
    eventTypes := fun _ _ =>
      { status := 200, body := Json.obj [("collection", Json.arr [Json.obj []])] }
    scheduledEvents := fun _ _ _ => { status := 404, body := Json.null } }

/-- A secret store whose lookup call fails. -/
def c8wLookupFail : SecretWorld :=
  { lookup := Except.error PyErr.lookupFailed, parse := fun _ => Except.ok Json.null }

/-- A secret store whose document does not parse. -/
def c8wParseFail : SecretWorld :=
  { lookup := Except.ok "not json", parse := fun _ => Except.error PyErr.parseError }

/-- A secret store whose parsed document lacks the `calendly-api-key` key. -/
def c8wKeyAbsent : SecretWorld :=
  { lookup := Except.ok "doc",
    parse := fun _ => Except.ok (Json.obj [("other-key", Json.str "x")]) }

/-- A secret store resolving to the given token. -/
def tokSecrets (tok : String) : SecretWorld :=
  { lookup := Except.ok "doc",
    parse := fun _ => Except.ok (Json.obj [("calendly-api-key", Json.str tok)]) }

/-- A full world with the given token and an unavailable API. -/
def tokWorld (tok : String) : LambdaWorld :=
  { secrets := tokSecrets tok, api := c2Api }

theorem lookup_none_of_not_mem {β : Type} (fs : List (String × β)) (k : String)
    (h : k ∉ fs.map Prod.fst) : fs.lookup k = none := by
  induction fs with
  | nil => rfl
  | cons f rest ih =>
      simp only [List.map_cons, List.mem_cons] at h
      push_neg at h
      simp [List.lookup, beq_eq_false_iff_ne.mpr h.1, ih h.2]

theorem addCols_of_subset (ks : List String) :
    ∀ a : List String, (∀ k ∈ ks, k ∈ a) → addCols a ks = a := by
  induction ks with
  | nil => intro a _; rfl
  | cons k rest ih =>
      intro a h
      have hk : k ∈ a := h k (List.mem_cons_self k rest)
      have hrest : ∀ j ∈ rest, j ∈ a := fun j hj => h j (List.mem_cons_of_mem k hj)
      simp only [addCols, List.foldl_cons, if_pos hk]
      exact ih a hrest

theorem foldl_addCols_fixed (rs : List Rec)
    (h : ∀ r ∈ rs, r.map Prod.fst = eventFields) :
    rs.foldl (fun a r => addCols a (r.map Prod.fst)) eventFields = eventFields := by
  induction rs with
  | nil => rfl
  | cons r rest ih =>
      have hr : r.map Prod.fst = eventFields := h r (List.mem_cons_self r rest)
      have hstep : addCols eventFields (r.map Prod.fst) = eventFields := by
        rw [hr]; exact addCols_of_subset eventFields eventFields (fun k hk => hk)
      simp only [List.foldl_cons, hstep]
      exact ih (fun x hx => h x (List.mem_cons_of_mem r hx))

theorem dfColumns_uniform (records : List Rec)
    (h : ∀ r ∈ records, r.map Prod.fst = eventFields) (hne : records ≠ []) :
    dfColumns records = eventFields := by
  cases records with
  | nil => exact absurd rfl hne
  | cons r rest =>
      have hr : r.map Prod.fst = eventFields := h r (List.mem_cons_self r rest)
      have h0 : addCols [] (r.map Prod.fst) = eventFields := by
        rw [hr]; rfl
      simp only [dfColumns, List.foldl_cons, h0]
      exact foldl_addCols_fixed rest (fun x hx => h x (List.mem_cons_of_mem r hx))

theorem flatten_event_keys (ev : Json) (r : Rec)
    (h : flatten_event ev = Except.ok r) : r.map Prod.fst = eventFields := by
  cases ev with
  | obj fs =>
      dsimp only [flatten_event, pyGetE] at h
      cases hloc : (fs.lookup "location").getD (Json.obj []) <;> rw [hloc] at h <;>
        dsimp only [pyGetE] at h
      case obj lfs =>
        injection h with h
        subst h
        rfl
      all_goals exact absurd h (by simp)
  | null => exact absurd h (by simp [flatten_event, pyGetE])
  | bool b => exact absurd h (by simp [flatten_event, pyGetE])
  | num q => exact absurd h (by simp [flatten_event, pyGetE])
  | str s => exact absurd h (by simp [flatten_event, pyGetE])
  | arr xs => exact absurd h (by simp [flatten_event, pyGetE])

theorem flatten_event_obj_eq (fs lfs : List (String × Json))
    (hloc : (fs.lookup "location").getD (Json.obj []) = Json.obj lfs) :
    flatten_event (Json.obj fs) = Except.ok
      [("event_id", (fs.lookup "uri").getD (Json.str "")),
       ("event_type", (fs.lookup "event_type").getD (Json.str "")),
       ("start_time", (fs.lookup "start_time").getD (Json.str "")),
       ("end_time", (fs.lookup "end_time").getD (Json.str "")),
       ("status", (fs.lookup "status").getD (Json.str "N/A")),
       ("invitee_email", (lfs.lookup "email").getD (Json.str "N/A"))] := by
  dsimp only [flatten_event, pyGetE]
  rw [hloc]

theorem flatten_collection_keys (items : List Json) (l : List Rec)
    (h : flatten_collection items = Except.ok l) :
    ∀ r ∈ l, r.map Prod.fst = eventFields := by
  induction items generalizing l with
  | nil =>
      injection h with h
      subst h
      intro r hr
      cases hr
  | cons e rest ih =>
      dsimp only [flatten_collection] at h
      cases hfe : flatten_event e <;> rw [hfe] at h <;> dsimp only at h
      · exact absurd h (by simp)
      · cases hrest : flatten_collection rest <;> rw [hrest] at h <;> dsimp only at h
        · exact absurd h (by simp)
        · injection h with h
          subst h
          intro r hr
          rcases List.mem_cons.mp hr with h1 | h2
          · subst h1; exact flatten_event_keys e _ hfe
          · exact ih _ hrest r h2

theorem fetch_events_for_non200 (apiKey : String) (api : Api) (org et : Json)
    (h : (api.scheduledEvents apiKey et org).status ≠ 200) :
    fetch_events_for apiKey api org et = Except.ok [] := by
  dsimp only [fetch_events_for]
  rw [if_neg h]

theorem fetch_events_for_keys (apiKey : String) (api : Api) (org et : Json)
    (l : List Rec) (h : fetch_events_for apiKey api org et = Except.ok l) :
    ∀ r ∈ l, r.map Prod.fst = eventFields := by
  dsimp only [fetch_events_for] at h
  by_cases hs : (api.scheduledEvents apiKey et org).status = 200
  · rw [if_pos hs] at h
    cases hc : pyGetE (api.scheduledEvents apiKey et org).body "collection" (Json.arr []) <;>
      rw [hc] at h <;> dsimp only at h
    · exact absurd h (by simp)
    · rename_i coll
      cases hit : pyIter coll <;> rw [hit] at h <;> dsimp only at h
      · exact absurd h (by simp)
      · exact flatten_collection_keys _ _ h
  · rw [if_neg hs] at h
    injection h with h
    subst h
    intro r hr
    cases hr

theorem fetch_loop_keys (apiKey : String) (api : Api) (org : Json)
    (ets : List Json) (calls : List ApiCall) (l : List Rec)
    (h : fetch_loop apiKey api org ets = (calls, Except.ok l)) :
    ∀ r ∈ l, r.map Prod.fst = eventFields := by
  induction ets generalizing calls l with
  | nil =>
      dsimp only [fetch_loop] at h
      injection h with h1 h2
      injection h2 with h2
      subst h2
      intro r hr
      cases hr
  | cons et rest ih =>
      dsimp only [fetch_loop] at h
      cases hfe : fetch_events_for apiKey api org et <;> rw [hfe] at h <;> dsimp only at h
      · exact absurd (congrArg Prod.snd h) (by simp)
      · rename_i evs
        cases hrec : fetch_loop apiKey api org rest with
        | mk cs res =>
            rw [hrec] at h
            dsimp only at h
            cases res with
            | error e => exact absurd (congrArg Prod.snd h) (by simp)
            | ok l2 =>
                have h2 := congrArg Prod.snd h
                dsimp only at h2
                injection h2 with h2
                subst h2
                intro r hr
                rcases List.mem_append.mp hr with h1 | h1
                · exact fetch_events_for_keys apiKey api org et evs hfe r h1
                · exact ih cs l2 hrec r h1

theorem fetch_keys (apiKey : String) (api : Api) (calls : List ApiCall)
    (recs : List Rec)
    (h : fetch_calendly_scheduled_calls apiKey api = (calls, Except.ok recs)) :
    ∀ r ∈ recs, r.map Prod.fst = eventFields := by
  dsimp only [fetch_calendly_scheduled_calls] at h
  cases horg : get_calendly_org_uri apiKey api with
  | mk c1 ores =>
      rw [horg] at h
      cases ores with
      | error e =>
          dsimp only at h
          exact absurd (congrArg Prod.snd h) (by simp)
      | ok oopt =>
          cases oopt with
          | none =>
              dsimp only at h
              have h2 := congrArg Prod.snd h
              dsimp only at h2
              injection h2 with h2
              subst h2
              intro r hr
              cases hr
          | some org =>
              dsimp only at h
              by_cases htru : pyTruthy org = true
              · rw [if_pos htru] at h
                cases hets : get_event_types apiKey api org with
                | mk c2 eres =>
                    rw [hets] at h
                    cases eres with
                    | error e =>
                        dsimp only at h
                        exact absurd (congrArg Prod.snd h) (by simp)
                    | ok ets =>
                        dsimp only at h
                        by_cases hemp : ets.isEmpty = true
                        · rw [if_pos hemp] at h
                          have h2 := congrArg Prod.snd h
                          dsimp only at h2
                          injection h2 with h2
                          subst h2
                          intro r hr
                          cases hr
                        · rw [if_neg hemp] at h
                          cases hloop : fetch_loop apiKey api org ets with
                          | mk c3 res =>
                              rw [hloop] at h
                              dsimp only at h
                              have h2 := congrArg Prod.snd h
                              dsimp only at h2
                              rw [h2] at hloop
                              exact fetch_loop_keys apiKey api org ets c3 recs hloop
              · rw [if_neg htru] at h
                have h2 := congrArg Prod.snd h
                dsimp only at h2
                injection h2 with h2
                subst h2
                intro r hr
                cases hr

theorem run_core_print_head (ts : String) (w : LambdaWorld) (c : Option Json)
    (h : get_calendly_api_key w.secrets = Except.ok c) :
    ∃ rest, (run_core ts w).1 = Effect.printOut (pyStrOpt c) :: rest := by
  dsimp only [run_core]
  rw [h]
  dsimp only
  cases hf : fetch_calendly_scheduled_calls (pyStrOpt c) w.api with
  | mk calls res =>
      cases res with
      | error e => exact ⟨List.map Effect.api calls, rfl⟩
      | ok recs =>
          dsimp only
          cases hm : calculate_metrics ts (df_of_records recs) <;> exact ⟨_, rfl⟩

theorem lambda_handler_fst (ts : String) (w : LambdaWorld) :
    (lambda_handler ts w).1 = (run_core ts w).1 := by
  dsimp only [lambda_handler]
  cases h : run_core ts w with
  | mk fx res => cases res <;> rfl

theorem stdoutOf_print_cons (s : String) (rest : List Effect) :
    stdoutOf (Effect.printOut s :: rest) = s :: stdoutOf rest := rfl

/-- C1: the spec says `aggregate([]).completed_calls_percentage == 0` with no
failure, but on the empty record set `pd.DataFrame([])` has no columns, so
`calendly_df["status"]` raises `KeyError` before the guarded percentage is
ever computed: the `else 0` branch is unreachable on the empty set. -/
theorem claim1_aggregate_empty_raises :
    calculate_metrics "2025-10-12_00-00-00" (df_of_records []) =
      Except.error (PyErr.keyError "status") := rfl

/-- C2: when the organization-URI call answers a non-200 status,
`fetch_calendly_scheduled_calls` returns an empty record set and its request
trace is exactly the single `/users/me` call — no event-type listing and no
scheduled-event listing is issued. -/
theorem claim2_org_absent_no_further_calls (apiKey : String) (api : Api)
    (h : (api.usersMe apiKey).status ≠ 200) :
    fetch_calendly_scheduled_calls apiKey api = ([ApiCall.usersMe], Except.ok []) := by
  have horg : get_calendly_org_uri apiKey api = ([ApiCall.usersMe], Except.ok none) := by
    dsimp only [get_calendly_org_uri]
    rw [if_neg h]
  dsimp only [fetch_calendly_scheduled_calls]
  rw [horg]

theorem claim2_org_absent_no_further_calls_witness :
    fetch_calendly_scheduled_calls "token" c2Api = ([ApiCall.usersMe], Except.ok []) :=
  claim2_org_absent_no_further_calls "token" c2Api (by decide)

/-- C7: `lambda_handler` answers status 200 exactly when the run body
completes, answers 500 when any exception was raised inside it, and in every
world answers one of the two — the model is a total function, so the
exception never escapes the handler. -/
theorem claim7_statuscode_total (ts : String) (w : LambdaWorld) :
    ((lambda_handler ts w).2.statusCode
        = if (run_core ts w).2.isOk then 200 else 500) ∧
    ((lambda_handler ts w).2.statusCode = 200 ∨
      (lambda_handler ts w).2.statusCode = 500) := by
  dsimp only [lambda_handler]
  cases h : run_core ts w with
  | mk fx res =>
      cases res with
      | error e => exact ⟨rfl, Or.inr rfl⟩
      | ok u => exact ⟨rfl, Or.inl rfl⟩

/-- C8: the credential resolver propagates a failing secret lookup and a
failing document parse as exceptions, but when both succeed and the
`calendly-api-key` key is absent from the document it returns an empty
credential (`none`) instead of raising. -/
theorem claim8_credential_resolver :
    (∀ (w : SecretWorld) (e : PyErr), w.lookup = Except.error e →
      get_calendly_api_key w = Except.error e) ∧
    (∀ (w : SecretWorld) (s : String) (e : PyErr), w.lookup = Except.ok s →
      w.parse s = Except.error e → get_calendly_api_key w = Except.error e) ∧
    (∀ (w : SecretWorld) (s : String) (fs : List (String × Json)),
      w.lookup = Except.ok s → w.parse s = Except.ok (Json.obj fs) →
      "calendly-api-key" ∉ fs.map Prod.fst →
      get_calendly_api_key w = Except.ok none) := by
  refine ⟨?_, ?_, ?_⟩
  · intro w e h
    dsimp only [get_calendly_api_key]
    rw [h]
  · intro w s e h1 h2
    dsimp only [get_calendly_api_key]
    rw [h1]
    dsimp only
    rw [h2]
  · intro w s fs h1 h2 h3
    dsimp only [get_calendly_api_key]
    rw [h1]
    dsimp only
    rw [h2]
    dsimp only
    rw [lookup_none_of_not_mem fs _ h3]

theorem claim8_credential_resolver_witness :
    get_calendly_api_key c8wLookupFail = Except.error PyErr.lookupFailed ∧
    get_calendly_api_key c8wParseFail = Except.error PyErr.parseError ∧
    get_calendly_api_key c8wKeyAbsent = Except.ok none :=
  ⟨claim8_credential_resolver.1 c8wLookupFail PyErr.lookupFailed rfl,
   claim8_credential_resolver.2.1 c8wParseFail "not json" PyErr.parseError rfl rfl,
   claim8_credential_resolver.2.2 c8wKeyAbsent "doc" [("other-key", Json.str "x")]
     rfl rfl (by decide)⟩

/-- C9: a 200 event-type listing whose collection holds an item without a
`uri` key makes `get_event_types` raise `KeyError` (unguarded subscripting)
instead of returning a sequence. -/
theorem claim9_event_types_keyerror :
    (c9Api.eventTypes "token" (Json.str "org")).status = 200 ∧
    (get_event_types "token" c9Api (Json.str "org")).2 =
      Except.error (PyErr.keyError "uri") :=
  ⟨rfl, rfl⟩

/-- C3: with three event types of which exactly one answers non-200 while the
other two deliver `l1` and `l2` flattened events, the pipeline returns a
record set of exactly `l1.length + l2.length` events: the failing type
contributes zero events and the loop continues past it. -/
theorem claim3_partial_failure_sums (apiKey : String) (api : Api)
    (org t1 t2 t3 : Json) (l1 l2 : List Rec)
    (horg : (get_calendly_org_uri apiKey api).2 = Except.ok (some org))
    (htru : pyTruthy org = true)
    (hets : (get_event_types apiKey api org).2 = Except.ok [t1, t2, t3])
    (hcase :
      (fetch_events_for apiKey api org t1 = Except.ok l1 ∧
        fetch_events_for apiKey api org t2 = Except.ok l2 ∧
        (api.scheduledEvents apiKey t3 org).status ≠ 200) ∨
      (fetch_events_for apiKey api org t1 = Except.ok l1 ∧
        (api.scheduledEvents apiKey t2 org).status ≠ 200 ∧
        fetch_events_for apiKey api org t3 = Except.ok l2) ∨
      ((api.scheduledEvents apiKey t1 org).status ≠ 200 ∧
        fetch_events_for apiKey api org t2 = Except.ok l1 ∧
        fetch_events_for apiKey api org t3 = Except.ok l2)) :
    ∃ l, (fetch_calendly_scheduled_calls apiKey api).2 = Except.ok l ∧
      l.length = l1.length + l2.length := by
  cases horgp : get_calendly_org_uri apiKey api with
  | mk c1 ores =>
      rw [horgp] at horg
      dsimp only at horg
      subst horg
      cases hetsp : get_event_types apiKey api org with
      | mk c2 eres =>
          rw [hetsp] at hets
          dsimp only at hets
          subst hets
          dsimp only [fetch_calendly_scheduled_calls]
          rw [horgp]
          dsimp only
          rw [if_pos htru, hetsp]
          dsimp only
          rw [if_neg (by simp : ¬ (([t1, t2, t3] : List Json).isEmpty = true))]
          dsimp only [fetch_loop]
          rcases hcase with ⟨h1, h2, h3⟩ | ⟨h1, h2, h3⟩ | ⟨h1, h2, h3⟩
          · rw [h1, h2, fetch_events_for_non200 apiKey api org t3 h3]
            dsimp only
            exact ⟨l1 ++ (l2 ++ ([] ++ [])), rfl, by simp⟩
          · rw [h1, h3, fetch_events_for_non200 apiKey api org t2 h2]
            dsimp only
            exact ⟨l1 ++ ([] ++ (l2 ++ [])), rfl, by simp⟩
          · rw [h2, h3, fetch_events_for_non200 apiKey api org t1 h1]
            dsimp only
            exact ⟨[] ++ (l1 ++ (l2 ++ [])), rfl, by simp⟩

theorem claim3_partial_failure_sums_witness :
    ∃ l, (fetch_calendly_scheduled_calls "token" c3Api).2 = Except.ok l ∧
      l.length = ([mkRec "e1"] : List Rec).length
        + ([mkRec "e2", mkRec "e3"] : List Rec).length :=
  claim3_partial_failure_sums "token" c3Api (Json.str "org/abc")
    (Json.str "t1") (Json.str "t2") (Json.str "t3")
    [mkRec "e1"] [mkRec "e2", mkRec "e3"]
    rfl rfl rfl (Or.inr (Or.inl ⟨rfl, by decide, rfl⟩))

/-- C4: persisting an empty record set issues zero writes (a logged no-op);
persisting a non-empty set of fixed-shape records issues exactly one write
whose body is the header line of the six field names, in the order of the
record fields, followed by one CSV line per record. -/
theorem claim4_persist_writes (records : List Rec) (path : String)
    (hshape : ∀ r ∈ records, r.map Prod.fst = eventFields) :
    (records = [] → upload_to_s3 (df_of_records records) path = []) ∧
    (records ≠ [] →
      (df_of_records records).columns = eventFields ∧
      (df_of_records records).rows.length = records.length ∧
      upload_to_s3 (df_of_records records) path =
        [{ bucket := S3_BUCKET_NAME, key := path,
           body := csvLine eventFields ++
             String.join ((df_of_records records).rows.map
               (fun row => csvLine (row.map cellStr))) }]) := by
  constructor
  · intro he
    subst he
    rfl
  · intro hne
    have hcols : (df_of_records records).columns = eventFields :=
      dfColumns_uniform records hshape hne
    have hrows : (df_of_records records).rows.length = records.length := by
      dsimp only [df_of_records]
      exact List.length_map _ _
    refine ⟨hcols, hrows, ?_⟩
    have hre : (df_of_records records).rows.isEmpty = false := by
      dsimp only [df_of_records]
      cases records with
      | nil => exact absurd rfl hne
      | cons r rest => rfl
    have hce : (df_of_records records).columns.isEmpty = false := by
      rw [hcols]
      rfl
    have hempty : (df_of_records records).empty = false := by
      dsimp only [Df.empty]
      rw [hre, hce]
      rfl
    dsimp only [upload_to_s3]
    rw [hempty]
    simp only [Bool.false_eq_true, if_false]
    dsimp only [df_to_csv]
    rw [hcols]

theorem claim4_persist_writes_witness :
    (df_of_records [mkRec "e1"]).columns = eventFields ∧
    (df_of_records [mkRec "e1"]).rows.length = ([mkRec "e1"] : List Rec).length :=
  ⟨((claim4_persist_writes [mkRec "e1"] "path" (by decide)).2
      (List.cons_ne_nil _ _)).1,
   ((claim4_persist_writes [mkRec "e1"] "path" (by decide)).2
      (List.cons_ne_nil _ _)).2.1⟩

/-- C5: whenever the frame has a `status` column the aggregator succeeds with
`total_scheduled_calls` equal to the number of rows and `completed_calls` the
count of rows whose status cell equals `"completed"`, which is at most the
total; but the claim quantifies over every event set, and on the empty set
the frame has no `status` column and the aggregator raises instead (see the
C1 theorem), so the claim fails there. -/
theorem claim5_metric_counts (ts : String) (df : Df) (i : ℕ)
    (h : df.columns.indexOf? "status" = some i) :
    calculate_metrics ts df = Except.ok
      { columns := metricsColumns
        rows := [[Json.str ts, Json.num (df.rows.length : ℚ),
          Json.num (((df.rows.filter
            (fun row => jsonEqStr (row.getD i Json.null) "completed")).length : ℚ)),
          Json.num (round2 (if 0 < df.rows.length then
            (((df.rows.filter
              (fun row => jsonEqStr (row.getD i Json.null) "completed")).length : ℚ)
              / (df.rows.length : ℚ)) * 100 else 0))]] } ∧
    (df.rows.filter (fun row => jsonEqStr (row.getD i Json.null) "completed")).length
      ≤ df.rows.length := by
  constructor
  · dsimp only [calculate_metrics]
    rw [h]
  · exact List.length_filter_le _ _

theorem claim5_metric_counts_witness :
    ((df_of_records [mkRec "e1"]).rows.filter
      (fun row => jsonEqStr (row.getD 4 Json.null) "completed")).length
      ≤ (df_of_records [mkRec "e1"]).rows.length :=
  (claim5_metric_counts "TS" (df_of_records [mkRec "e1"]) 4 rfl).2

theorem flatten_event_ok_shape (fs : List (String × Json)) (r : Rec)
    (h : flatten_event (Json.obj fs) = Except.ok r) :
    ∃ lfs, (fs.lookup "location").getD (Json.obj []) = Json.obj lfs ∧
      r = [("event_id", (fs.lookup "uri").getD (Json.str "")),
           ("event_type", (fs.lookup "event_type").getD (Json.str "")),
           ("start_time", (fs.lookup "start_time").getD (Json.str "")),
           ("end_time", (fs.lookup "end_time").getD (Json.str "")),
           ("status", (fs.lookup "status").getD (Json.str "N/A")),
           ("invitee_email", (lfs.lookup "email").getD (Json.str "N/A"))] := by
  cases hloc : (fs.lookup "location").getD (Json.obj []) with
  | obj lfs =>
      rw [flatten_event_obj_eq fs lfs hloc] at h
      injection h with h
      exact ⟨lfs, rfl, h.symm⟩
  | null =>
      dsimp only [flatten_event, pyGetE] at h
      rw [hloc] at h
      exact absurd h (by simp)
  | bool b =>
      dsimp only [flatten_event, pyGetE] at h
      rw [hloc] at h
      exact absurd h (by simp)
  | num q =>
      dsimp only [flatten_event, pyGetE] at h
      rw [hloc] at h
      exact absurd h (by simp)
  | str s =>
      dsimp only [flatten_event, pyGetE] at h
      rw [hloc] at h
      exact absurd h (by simp)
  | arr xs =>
      dsimp only [flatten_event, pyGetE] at h
      rw [hloc] at h
      exact absurd h (by simp)

/-- C6: every record the pipeline returns carries exactly the six fields in
their fixed order, and when the source event omits `status`, or carries no
location email (no `location` at all, or a `location` object without
`email`), the respective field holds the placeholder `"N/A"`. -/
theorem claim6_fixed_record_shape :
    (∀ (apiKey : String) (api : Api) (calls : List ApiCall) (recs : List Rec),
        fetch_calendly_scheduled_calls apiKey api = (calls, Except.ok recs) →
        ∀ r ∈ recs, r.map Prod.fst = eventFields) ∧
    (∀ (fs : List (String × Json)) (r : Rec),
        flatten_event (Json.obj fs) = Except.ok r →
        ("status" ∉ fs.map Prod.fst → r.lookup "status" = some (Json.str "N/A")) ∧
        ("location" ∉ fs.map Prod.fst →
          r.lookup "invitee_email" = some (Json.str "N/A")) ∧
        (∀ lfs, fs.lookup "location" = some (Json.obj lfs) →
          "email" ∉ lfs.map Prod.fst →
          r.lookup "invitee_email" = some (Json.str "N/A"))) := by
  constructor
  · exact fetch_keys
  · intro fs r h
    obtain ⟨lfs, hloc, hr⟩ := flatten_event_ok_shape fs r h
    subst hr
    refine ⟨?_, ?_, ?_⟩
    · intro hst
      rw [show fs.lookup "status" = none from lookup_none_of_not_mem fs _ hst]
      rfl
    · intro hlm
      rw [show fs.lookup "location" = none from lookup_none_of_not_mem fs _ hlm] at hloc
      dsimp only [Option.getD] at hloc
      injection hloc with hloc
      rw [← hloc]
      rfl
    · intro lfs2 hl2 hem
      rw [hl2] at hloc
      dsimp only [Option.getD] at hloc
      injection hloc with hloc
      rw [← hloc]
      rw [show lfs2.lookup "email" = none from lookup_none_of_not_mem lfs2 _ hem]
      rfl

theorem claim6_fixed_record_shape_witness :
    (mkRec "e1").map Prod.fst = eventFields ∧
    (mkRec "e2").lookup "status" = some (Json.str "N/A") :=
  ⟨claim6_fixed_record_shape.1 "token" c3Api c3calls c3recs rfl (mkRec "e1")
      (by simp [c3recs]),
   (claim6_fixed_record_shape.2 [("uri", Json.str "e2")] (mkRec "e2") rfl).1
      (by decide)⟩

/-- C10: whenever the credential resolver succeeds, the very first observable
effect of the run is `print(api_key)` — the credential reaches standard
output before any API request — and two runs resolving different string
credentials produce different standard output. -/
theorem claim10_credential_stdout :
    (∀ (ts : String) (w : LambdaWorld) (c : Option Json),
        get_calendly_api_key w.secrets = Except.ok c →
        ∃ rest, (lambda_handler ts w).1 = Effect.printOut (pyStrOpt c) :: rest) ∧
    (∀ (ts : String) (w₁ w₂ : LambdaWorld) (c₁ c₂ : String),
        get_calendly_api_key w₁.secrets = Except.ok (some (Json.str c₁)) →
        get_calendly_api_key w₂.secrets = Except.ok (some (Json.str c₂)) →
        c₁ ≠ c₂ →
        stdoutOf (lambda_handler ts w₁).1 ≠ stdoutOf (lambda_handler ts w₂).1) := by
  have head : ∀ (ts : String) (w : LambdaWorld) (c : Option Json),
      get_calendly_api_key w.secrets = Except.ok c →
      ∃ rest, (lambda_handler ts w).1 = Effect.printOut (pyStrOpt c) :: rest := by
    intro ts w c h
    obtain ⟨rest, hr⟩ := run_core_print_head ts w c h
    refine ⟨rest, ?_⟩
    rw [lambda_handler_fst]
    exact hr
  refine ⟨head, ?_⟩
  intro ts w₁ w₂ c₁ c₂ h1 h2 hne hcontra
  obtain ⟨r1, e1⟩ := head ts w₁ _ h1
  obtain ⟨r2, e2⟩ := head ts w₂ _ h2
  rw [e1, e2, stdoutOf_print_cons, stdoutOf_print_cons] at hcontra
  have heq : pyStrOpt (some (Json.str c₁)) = pyStrOpt (some (Json.str c₂)) := by
    injection hcontra
  dsimp only [pyStrOpt, pyStr] at heq
  exact hne heq

theorem claim10_credential_stdout_witness :
    stdoutOf (lambda_handler "TS" (tokWorld "tokA")).1 ≠
      stdoutOf (lambda_handler "TS" (tokWorld "tokB")).1 :=
  claim10_credential_stdout.2 "TS" (tokWorld "tokA") (tokWorld "tokB")
    "tokA" "tokB" rfl rfl (by decide)
